import Mathlib

/-!
# PolyChord C++ interface header (`src/polychord.h`)

The header does two things: a preprocessor conditional selects the linkage name behind
`POLYCHORD`, and the function `run` hands its twenty parameters to the external routine
`POLYCHORD`.  The sampling engine itself is external to the header.

The embedding below keeps

* the preprocessor conditional as a function of whether `__INTEL_COMPILER` is defined,
* `run` and the external call as procedures in a small execution-record monad `Exec`:
  an execution is the list of actions the code performed together with how it ended,
* the linked engine as a parameter: what it does with the argument vector it receives
  (the callback invocations it makes and how it ends) is its own business.
-/

namespace PolyChord

/-! ## Values crossing the interface -/

/-- A C++ `double`, kept as its IEEE-754 binary64 bit pattern.  The header performs no
arithmetic on doubles; it only copies them. -/
abbrev Double := Fin (2 ^ 64)

/-- The comparison `0 < d` on doubles: sign bit clear, not zero, not a NaN
(`0x7FF0000000000000` is `+inf`, the largest pattern that is not a NaN with sign bit clear). -/
def Double.isPositive (d : Double) : Bool :=
  decide (0 < d.val ∧ d.val ≤ 0x7FF0000000000000)

/-- What one call of the likelihood callback leaves behind: the returned log-likelihood
and the contents of its four by-reference parameters after the call. -/
structure CallbackResult where
  loglikelihood : Double
  point : List Double
  nDims : Int
  derived : List Double
  nDerived : Int

/-- The callback type `double (*)(double[], int&, double[], int&)`: the two buffers are
lists whose length is the number of elements the caller allocated. -/
abbrev Callback := List Double → Int → List Double → Int → CallbackResult

/-- One invocation of a callback: the function called and the four actual arguments. -/
structure Invocation where
  callee : Callback
  point : List Double
  nDims : Int
  derived : List Double
  nDerived : Int

/-- The result the callee produces in an invocation. -/
def Invocation.result (inv : Invocation) : CallbackResult :=
  inv.callee inv.point inv.nDims inv.derived inv.nDerived

/-- The argument vector of `POLYCHORD`, field by field as the `extern` declaration names
and orders its parameters. -/
structure ArgVector where
  c_loglikelihood_ptr : Callback
  nlive : Int
  num_repeats : Int
  do_clustering : Bool
  feedback : Int
  precision_criterion : Double
  max_ndead : Int
  boost_posterior : Double
  posteriors : Bool
  equals : Bool
  cluster_posteriors : Bool
  write_resume : Bool
  write_paramnames : Bool
  read_resume : Bool
  write_stats : Bool
  write_live : Bool
  write_dead : Bool
  update_files : Int
  nDims : Int
  nDerived : Int

/-- One actual argument of a call, tagged with its C++ type. -/
inductive Arg where
  | fn (f : Callback)
  | int (i : Int)
  | bool (b : Bool)
  | dbl (d : Double)

/-- The argument vector position by position (positions are counted from 0). -/
def ArgVector.toList (a : ArgVector) : List Arg :=
  [Arg.fn a.c_loglikelihood_ptr, Arg.int a.nlive, Arg.int a.num_repeats,
   Arg.bool a.do_clustering, Arg.int a.feedback, Arg.dbl a.precision_criterion,
   Arg.int a.max_ndead, Arg.dbl a.boost_posterior, Arg.bool a.posteriors,
   Arg.bool a.equals, Arg.bool a.cluster_posteriors, Arg.bool a.write_resume,
   Arg.bool a.write_paramnames, Arg.bool a.read_resume, Arg.bool a.write_stats,
   Arg.bool a.write_live, Arg.bool a.write_dead, Arg.int a.update_files,
   Arg.int a.nDims, Arg.int a.nDerived]

/-! ## Executions -/

/-- How a call ends: it returns a value (`Unit` for a `void` function), the process is
aborted with a status, or it never comes back. -/
inductive Outcome (α : Type) where
  | returned (value : α)
  | aborted (status : Int)
  | hangs
  deriving DecidableEq, Repr

/-- What the linked engine does during one invocation: the callback invocations it makes,
in order, and how the invocation ends. -/
structure EngineRun where
  calls : List Invocation
  outcome : Outcome Unit

/-- The routine the symbol `POLYCHORD` is linked to: its behaviour on an argument vector. -/
abbrev Engine := ArgVector → EngineRun

/-- An action performed by code on the caller's side of the engine boundary. -/
inductive Action where
  /-- a call of the engine with `args`; `inside` are the callback invocations the engine
  made while it had control -/
  | engine (args : ArgVector) (inside : List Invocation)
  /-- a direct call of the callback -/
  | callback (inv : Invocation)
  /-- a read of element `index` of a callback buffer -/
  | bufferRead (buffer : List Double) (index : Int)
  /-- a write of `value` to element `index` of a callback buffer -/
  | bufferWrite (buffer : List Double) (index : Int) (value : Double)

/-- The record of executing a procedure: the actions performed, in order, and the outcome. -/
structure Exec (α : Type) where
  actions : List Action
  outcome : Outcome α

/-- Falling off the end of a function / `return v`: no action. -/
def Exec.ret {α : Type} (v : α) : Exec α :=
  { actions := [], outcome := Outcome.returned v }

/-- Statement sequencing: the continuation runs only once the first part has returned. -/
def Exec.seq {α β : Type} (x : Exec α) (k : α → Exec β) : Exec β :=
  match x.outcome with
  | Outcome.returned v => { actions := x.actions ++ (k v).actions, outcome := (k v).outcome }
  | Outcome.aborted s => { actions := x.actions, outcome := Outcome.aborted s }
  | Outcome.hangs => { actions := x.actions, outcome := Outcome.hangs }

instance : Monad Exec where
  pure := Exec.ret
  bind := Exec.seq

/-- The argument vectors of the engine calls of an execution, in order. -/
def engineCalls {α : Type} (x : Exec α) : List ArgVector :=
  x.actions.filterMap fun act =>
    match act with
    | Action.engine args _ => some args
    | _ => none

/-- The callback invocations the adapter code performs itself. -/
def directCallbackCalls {α : Type} (x : Exec α) : List Invocation :=
  x.actions.filterMap fun act =>
    match act with
    | Action.callback inv => some inv
    | _ => none

/-- The buffer accesses the adapter code performs itself. -/
def bufferAccesses {α : Type} (x : Exec α) : List Action :=
  x.actions.filter fun act =>
    match act with
    | Action.bufferRead _ _ => true
    | Action.bufferWrite _ _ _ => true
    | _ => false

/-- The callback invocations made while the engine had control. -/
def engineCallbackCalls {α : Type} (x : Exec α) : List Invocation :=
  (x.actions.map fun act =>
    match act with
    | Action.engine _ inside => inside
    | _ => []).flatten

/-- Every callback invocation of an execution, whoever made it, in order. -/
def callbackInvocations {α : Type} (x : Exec α) : List Invocation :=
  (x.actions.map fun act =>
    match act with
    | Action.engine _ inside => inside
    | Action.callback inv => [inv]
    | _ => []).flatten

/-! ## The header -/

/-- Result of preprocessing lines 1-5 of the header. -/
inductive Binding where
  /-- `POLYCHORD` is defined as this linkage name -/
  | symbol (name : String)
  /-- translation stops with this `#error` diagnostic -/
  | error (diagnostic : String)
  deriving DecidableEq, Repr

/-- Lines 1-5: `#ifndef __INTEL_COMPILER` / `#define POLYCHORD ...` / `#else` / `#error ...`
/ `#endif`, as a function of whether the macro `__INTEL_COMPILER` is defined. -/
def POLYCHORD_binding (intel_compiler_defined : Bool) : Binding :=
  if !intel_compiler_defined then
    Binding.symbol "__interfaces_module_MOD_run_polychord_no_prior_no_setup"
  else
    Binding.error ("Do not know how to link to Fortran libraries, check symbol table for " ++
      "your platform (nm libnest3.a | grep nestrun) & edit example_eggbox_C++/eggbox.cc")

/-- Line 14, `extern void POLYCHORD(...)`: a call passes control to the linked engine with
the twenty actual arguments, in the declared order, and ends the way the engine ends. -/
def POLYCHORD (engine : Engine) (c_loglikelihood_ptr : Callback) (nlive : Int)
    (num_repeats : Int) (do_clustering : Bool) (feedback : Int)
    (precision_criterion : Double) (max_ndead : Int) (boost_posterior : Double)
    (posteriors : Bool) (equals : Bool) (cluster_posteriors : Bool) (write_resume : Bool)
    (write_paramnames : Bool) (read_resume : Bool) (write_stats : Bool) (write_live : Bool)
    (write_dead : Bool) (update_files : Int) (nDims : Int) (nDerived : Int) : Exec Unit :=
  let received : ArgVector :=
    ⟨c_loglikelihood_ptr, nlive, num_repeats, do_clustering, feedback, precision_criterion,
      max_ndead, boost_posterior, posteriors, equals, cluster_posteriors, write_resume,
      write_paramnames, read_resume, write_stats, write_live, write_dead, update_files,
      nDims, nDerived⟩
  { actions := [Action.engine received (engine received).calls],
    outcome := (engine received).outcome }

/-- Lines 16-20, `void run(...)`: the single statement `POLYCHORD(...);`, then the end of
the function body. -/
def run (engine : Engine) (c_loglikelihood_ptr : Callback) (nlive : Int)
    (num_repeats : Int) (do_clustering : Bool) (feedback : Int)
    (precision_criterion : Double) (max_ndead : Int) (boost_posterior : Double)
    (posteriors : Bool) (equals : Bool) (cluster_posteriors : Bool) (write_resume : Bool)
    (write_paramnames : Bool) (read_resume : Bool) (write_stats : Bool) (write_live : Bool)
    (write_dead : Bool) (update_files : Int) (nDims : Int) (nDerived : Int) : Exec Unit := do
  POLYCHORD engine c_loglikelihood_ptr nlive num_repeats do_clustering feedback
    precision_criterion max_ndead boost_posterior posteriors equals cluster_posteriors
    write_resume write_paramnames read_resume write_stats write_live write_dead
    update_files nDims nDerived
  return ()

/-- A call of `run` whose twenty actual arguments are the fields of `a`, in order. -/
def call_run (engine : Engine) (a : ArgVector) : Exec Unit :=
  run engine a.c_loglikelihood_ptr a.nlive a.num_repeats a.do_clustering a.feedback
    a.precision_criterion a.max_ndead a.boost_posterior a.posteriors a.equals
    a.cluster_posteriors a.write_resume a.write_paramnames a.read_resume a.write_stats
    a.write_live a.write_dead a.update_files a.nDims a.nDerived

/-! ## The nine boolean output flags -/

/-- The boolean parameters that select output artifacts (and resume behaviour). -/
inductive OutputFlag where
  | posteriors
  | equals
  | cluster_posteriors
  | write_resume
  | write_paramnames
  | read_resume
  | write_stats
  | write_live
  | write_dead
  deriving DecidableEq, Repr

/-- Position (from 0) of a flag in the parameter lists of `run` and `POLYCHORD`. -/
def OutputFlag.position : OutputFlag → Nat
  | OutputFlag.posteriors => 8
  | OutputFlag.equals => 9
  | OutputFlag.cluster_posteriors => 10
  | OutputFlag.write_resume => 11
  | OutputFlag.write_paramnames => 12
  | OutputFlag.read_resume => 13
  | OutputFlag.write_stats => 14
  | OutputFlag.write_live => 15
  | OutputFlag.write_dead => 16

/-- The value of a flag in an argument vector. -/
def OutputFlag.value : OutputFlag → ArgVector → Bool
  | OutputFlag.posteriors, a => a.posteriors
  | OutputFlag.equals, a => a.equals
  | OutputFlag.cluster_posteriors, a => a.cluster_posteriors
  | OutputFlag.write_resume, a => a.write_resume
  | OutputFlag.write_paramnames, a => a.write_paramnames
  | OutputFlag.read_resume, a => a.read_resume
  | OutputFlag.write_stats, a => a.write_stats
  | OutputFlag.write_live, a => a.write_live
  | OutputFlag.write_dead, a => a.write_dead

/-- The argument vector that differs from `a` in the given flag only. -/
def OutputFlag.toggle : OutputFlag → ArgVector → ArgVector
  | OutputFlag.posteriors, a => { a with posteriors := !a.posteriors }
  | OutputFlag.equals, a => { a with equals := !a.equals }
  | OutputFlag.cluster_posteriors, a => { a with cluster_posteriors := !a.cluster_posteriors }
  | OutputFlag.write_resume, a => { a with write_resume := !a.write_resume }
  | OutputFlag.write_paramnames, a => { a with write_paramnames := !a.write_paramnames }
  | OutputFlag.read_resume, a => { a with read_resume := !a.read_resume }
  | OutputFlag.write_stats, a => { a with write_stats := !a.write_stats }
  | OutputFlag.write_live, a => { a with write_live := !a.write_live }
  | OutputFlag.write_dead, a => { a with write_dead := !a.write_dead }

/-! ## The engine as the specification describes it

The Fortran routine behind `POLYCHORD` is not part of the header.  The definitions of this
section follow the specification's description of it. -/

/-- Modelled from the spec: the engine's internal decision procedure, which the header does
not contain.  From the callback results seen so far it yields the next point to evaluate,
or nothing once the run has converged ("the underlying engine repeatedly invokes the
callback an a priori unknown number of times", "in any order the engine chooses"). -/
abbrev Strategy := List CallbackResult → Option (List Double)

/-- Modelled from the spec: one likelihood evaluation by the engine, which the header does
not contain.  The callback it was handed is called with "a mutable buffer of `nDims`
doubles" holding the proposed point, "a mutable buffer of `nDerived` doubles" to be
filled, and the two dimensions as echo arguments. -/
def specEvaluate (a : ArgVector) (proposal : List Double) : Invocation :=
  { callee := a.c_loglikelihood_ptr
    point := (proposal ++ List.replicate a.nDims.toNat 0).take a.nDims.toNat
    nDims := a.nDims
    derived := List.replicate a.nDerived.toNat 0
    nDerived := a.nDerived }

/-- Modelled from the spec: the engine's evaluation loop, which the header does not
contain.  `max_ndead` is a "hard cap on number of likelihood evaluations/dead points
(... ≤0 conventionally means unbounded)"; otherwise the loop goes on until the strategy
stops.  `fuel` is the number of loop iterations observed: an engine still looping when it
runs out is recorded as hanging. -/
def specLoop (a : ArgVector) (strategy : Strategy) : Nat → List CallbackResult → EngineRun
  | 0, _ => { calls := [], outcome := Outcome.hangs }
  | fuel + 1, seen =>
    if 0 < a.max_ndead ∧ a.max_ndead ≤ (seen.length : Int) then
      { calls := [], outcome := Outcome.returned () }
    else
      match strategy seen with
      | none => { calls := [], outcome := Outcome.returned () }
      | some proposal =>
        let inv := specEvaluate a proposal
        let rest := specLoop a strategy fuel (seen ++ [inv.result])
        { calls := inv :: rest.calls, outcome := rest.outcome }

/-- Modelled from the spec: the sampling engine `POLYCHORD` is linked to, which the header
does not contain: the evaluation loop started with no result seen. -/
def specEngine (strategy : Strategy) (fuel : Nat) : Engine :=
  fun a => specLoop a strategy fuel []

/-! ## Concrete inputs -/

/-- A callback that returns log-likelihood `0` and leaves its arguments untouched. -/
def flatLikelihood : Callback :=
  fun point nDims derived nDerived => ⟨0, point, nDims, derived, nDerived⟩

/-- A configuration meeting every stated precondition: 2 dimensions, 1 derived parameter,
5 live points, `max_ndead = 3`, `precision_criterion = 1.0`. -/
def sampleArgs : ArgVector :=
  { c_loglikelihood_ptr := flatLikelihood, nlive := 5, num_repeats := 2,
    do_clustering := false, feedback := 1, precision_criterion := 0x3FF0000000000000,
    max_ndead := 3, boost_posterior := 0, posteriors := true, equals := false,
    cluster_posteriors := false, write_resume := false, write_paramnames := false,
    read_resume := false, write_stats := true, write_live := false, write_dead := true,
    update_files := 10, nDims := 2, nDerived := 1 }

/-- A configuration violating every stated precondition: `nDims = 0`, `nDerived = -1`,
`nlive = 0`, `num_repeats = 0`, `precision_criterion = 0.0`. -/
def outOfRangeArgs : ArgVector :=
  { sampleArgs with nDims := 0, nDerived := -1, nlive := 0, num_repeats := 0,
                    precision_criterion := 0 }

/-- An engine that makes no callback invocation and aborts with status 134. -/
def abortingEngine : Engine :=
  fun _ => { calls := [], outcome := Outcome.aborted 134 }

/-- An engine that evaluates the callback once per live point and pays no attention to
`max_ndead`. -/
def liveOnlyEngine : Engine :=
  fun a =>
    { calls := List.replicate a.nlive.toNat
        { callee := a.c_loglikelihood_ptr, point := List.replicate a.nDims.toNat 0,
          nDims := a.nDims, derived := List.replicate a.nDerived.toNat 0,
          nDerived := a.nDerived }
      outcome := Outcome.returned () }

/-- A strategy that never converges: it always proposes the origin. -/
def restlessStrategy : Strategy :=
  fun _ => some []

/-! ## Shared facts about `run` -/

theorem POLYCHORD_exec (engine : Engine) (a : ArgVector) :
    POLYCHORD engine a.c_loglikelihood_ptr a.nlive a.num_repeats a.do_clustering a.feedback
      a.precision_criterion a.max_ndead a.boost_posterior a.posteriors a.equals
      a.cluster_posteriors a.write_resume a.write_paramnames a.read_resume a.write_stats
      a.write_live a.write_dead a.update_files a.nDims a.nDerived =
    { actions := [Action.engine a (engine a).calls], outcome := (engine a).outcome } := rfl

theorem call_run_exec (engine : Engine) (a : ArgVector) :
    call_run engine a =
      { actions := [Action.engine a (engine a).calls], outcome := (engine a).outcome } := by
  unfold call_run run
  show Exec.seq _ _ = _
  rw [POLYCHORD_exec]
  unfold Exec.seq
  cases h : (engine a).outcome <;> simp [Exec.ret, pure]


theorem engineCalls_call_run (engine : Engine) (a : ArgVector) :
    engineCalls (call_run engine a) = [a] := by
  rw [call_run_exec]; rfl

theorem callbackInvocations_call_run (engine : Engine) (a : ArgVector) :
    callbackInvocations (call_run engine a) = (engine a).calls := by
  rw [call_run_exec]; simp [callbackInvocations]

/-! ## Facts about the engine as specified -/

theorem specLoop_calls_le_cap (a : ArgVector) (strategy : Strategy) (hcap : 0 < a.max_ndead)
    (fuel : Nat) : ∀ seen : List CallbackResult,
      ((specLoop a strategy fuel seen).calls.length : Int) + seen.length
        ≤ max a.max_ndead seen.length := by
  induction fuel with
  | zero => intro seen; simp [specLoop]
  | succ n ih =>
    intro seen
    unfold specLoop
    split
    · simp
    · rename_i hnot
      have hlt : (seen.length : Int) < a.max_ndead := by
        by_contra hge
        exact hnot ⟨hcap, not_lt.mp hge⟩
      cases hs : strategy seen with
      | none => simp
      | some proposal =>
        have h := ih (seen ++ [(specEvaluate a proposal).result])
        simp only [List.length_cons, List.length_append, List.length_singleton, List.length_nil,
          Nat.cast_add, Nat.cast_one] at h ⊢
        omega

theorem specLoop_calls_shape (a : ArgVector) (strategy : Strategy) (fuel : Nat) :
    ∀ seen : List CallbackResult, ∀ inv ∈ (specLoop a strategy fuel seen).calls,
      inv.callee = a.c_loglikelihood_ptr ∧ inv.point.length = a.nDims.toNat ∧
      inv.derived.length = a.nDerived.toNat ∧ inv.nDims = a.nDims ∧
      inv.nDerived = a.nDerived := by
  induction fuel with
  | zero => intro seen inv hinv; simp [specLoop] at hinv
  | succ n ih =>
    intro seen inv hinv
    unfold specLoop at hinv
    split at hinv
    · simp at hinv
    · cases hs : strategy seen with
      | none => simp [hs] at hinv
      | some proposal =>
        simp only [hs, List.mem_cons] at hinv
        rcases hinv with rfl | hrest
        · simp [specEvaluate]
        · exact ih _ inv hrest

/-! ## The claims -/

/-- C1: for every callback and every 19 configuration values, `run` invokes the engine
with the argument vector it received: the engine's parameter of each name holds the value
`run` was given for its parameter of that name, the twenty values arrive in the order
callback, nlive, num_repeats, do_clustering, feedback, precision_criterion, max_ndead,
boost_posterior, posteriors, equals, cluster_posteriors, write_resume, write_paramnames,
read_resume, write_stats, write_live, write_dead, update_files, nDims, nDerived, and the
whole execution of `run` is that of the one call `POLYCHORD(...)`. -/
theorem run_forwards_argument_vector (engine : Engine) (c_loglikelihood_ptr : Callback)
    (nlive num_repeats : Int) (do_clustering : Bool) (feedback : Int)
    (precision_criterion : Double) (max_ndead : Int) (boost_posterior : Double)
    (posteriors equals cluster_posteriors write_resume write_paramnames read_resume
      write_stats write_live write_dead : Bool)
    (update_files nDims nDerived : Int) :
    engineCalls (run engine c_loglikelihood_ptr nlive num_repeats do_clustering feedback
      precision_criterion max_ndead boost_posterior posteriors equals cluster_posteriors
      write_resume write_paramnames read_resume write_stats write_live write_dead
      update_files nDims nDerived) =
      [{ c_loglikelihood_ptr := c_loglikelihood_ptr, nlive := nlive,
         num_repeats := num_repeats, do_clustering := do_clustering, feedback := feedback,
         precision_criterion := precision_criterion, max_ndead := max_ndead,
         boost_posterior := boost_posterior, posteriors := posteriors, equals := equals,
         cluster_posteriors := cluster_posteriors, write_resume := write_resume,
         write_paramnames := write_paramnames, read_resume := read_resume,
         write_stats := write_stats, write_live := write_live, write_dead := write_dead,
         update_files := update_files, nDims := nDims, nDerived := nDerived }] ∧
    (engineCalls (run engine c_loglikelihood_ptr nlive num_repeats do_clustering feedback
      precision_criterion max_ndead boost_posterior posteriors equals cluster_posteriors
      write_resume write_paramnames read_resume write_stats write_live write_dead
      update_files nDims nDerived)).map ArgVector.toList =
      [[Arg.fn c_loglikelihood_ptr, Arg.int nlive, Arg.int num_repeats,
        Arg.bool do_clustering, Arg.int feedback, Arg.dbl precision_criterion,
        Arg.int max_ndead, Arg.dbl boost_posterior, Arg.bool posteriors, Arg.bool equals,
        Arg.bool cluster_posteriors, Arg.bool write_resume, Arg.bool write_paramnames,
        Arg.bool read_resume, Arg.bool write_stats, Arg.bool write_live,
        Arg.bool write_dead, Arg.int update_files, Arg.int nDims, Arg.int nDerived]] ∧
    run engine c_loglikelihood_ptr nlive num_repeats do_clustering feedback
      precision_criterion max_ndead boost_posterior posteriors equals cluster_posteriors
      write_resume write_paramnames read_resume write_stats write_live write_dead
      update_files nDims nDerived =
      POLYCHORD engine c_loglikelihood_ptr nlive num_repeats do_clustering feedback
      precision_criterion max_ndead boost_posterior posteriors equals cluster_posteriors
      write_resume write_paramnames read_resume write_stats write_live write_dead
      update_files nDims nDerived := by
  have hrun : run engine c_loglikelihood_ptr nlive num_repeats do_clustering feedback
      precision_criterion max_ndead boost_posterior posteriors equals cluster_posteriors
      write_resume write_paramnames read_resume write_stats write_live write_dead
      update_files nDims nDerived =
      call_run engine ⟨c_loglikelihood_ptr, nlive, num_repeats, do_clustering, feedback,
        precision_criterion, max_ndead, boost_posterior, posteriors, equals,
        cluster_posteriors, write_resume, write_paramnames, read_resume, write_stats,
        write_live, write_dead, update_files, nDims, nDerived⟩ := rfl
  refine ⟨?_, ?_, ?_⟩
  · rw [hrun, engineCalls_call_run]
  · rw [hrun, engineCalls_call_run]; rfl
  · rw [hrun, call_run_exec]; rfl

/-- C2: `run` validates nothing.  For every configuration, with no condition on its
values, the engine is invoked with exactly the configuration given, the execution consists
of that invocation, and `run` ends the way the engine ends; this holds in particular for
`nDims = 0`, `nDerived < 0`, `nlive < 1`, `num_repeats < 1`, `precision_criterion <= 0`. -/
theorem run_forwards_unvalidated (engine : Engine) (a : ArgVector) :
    engineCalls (call_run engine a) = [a] ∧
    (call_run engine a).actions = [Action.engine a (engine a).calls] ∧
    (call_run engine a).outcome = (engine a).outcome := by
  refine ⟨engineCalls_call_run engine a, ?_, ?_⟩ <;> rw [call_run_exec]

/-- C2 at a configuration that violates all five preconditions; the engine still receives
`nDims = 0`, `nDerived = -1`, `nlive = 0`, `num_repeats = 0`, `precision_criterion = 0.0`. -/
theorem run_forwards_unvalidated_witness :
    (outOfRangeArgs.nDims = 0 ∧ outOfRangeArgs.nDerived < 0 ∧ outOfRangeArgs.nlive < 1 ∧
      outOfRangeArgs.num_repeats < 1 ∧
      outOfRangeArgs.precision_criterion.isPositive = false) ∧
    engineCalls (call_run (specEngine restlessStrategy 4) outOfRangeArgs) = [outOfRangeArgs] ∧
    ((engineCalls (call_run (specEngine restlessStrategy 4) outOfRangeArgs)).map fun v =>
      (v.nDims, v.nDerived, v.nlive, v.num_repeats, v.precision_criterion)) =
      [(0, -1, 0, 0, 0)] :=
  ⟨by decide, (run_forwards_unvalidated (specEngine restlessStrategy 4) outOfRangeArgs).1,
    by decide⟩

/-- C3: every call of `run` is exactly one invocation of the engine and nothing else (no
second call, whatever the outcome of the first), and `run` returns exactly when that
invocation has returned. -/
theorem run_invokes_engine_exactly_once (engine : Engine) (a : ArgVector) :
    (engineCalls (call_run engine a)).length = 1 ∧
    (call_run engine a).actions.length = 1 ∧
    ((call_run engine a).outcome = Outcome.returned () ↔
      (engine a).outcome = Outcome.returned ()) := by
  rw [engineCalls_call_run, call_run_exec]
  simp

/-- C4: the result of `run` carries no value and no status.  When the engine returns,
`run` returns the unit value; when the engine aborts, `run` ends with the same abort
(same status), and when the engine never returns neither does `run`. -/
theorem run_reports_nothing (engine : Engine) (a : ArgVector) :
    (call_run engine a).outcome =
      match (engine a).outcome with
      | Outcome.returned _ => Outcome.returned ()
      | Outcome.aborted status => Outcome.aborted status
      | Outcome.hangs => Outcome.hangs := by
  rw [call_run_exec]
  cases (engine a).outcome <;> rfl

/-- C4 at an engine that aborts with status 134: `run` ends with the same abort, and at
an engine that returns: `run` returns the unit value. -/
theorem run_reports_nothing_witness :
    (call_run abortingEngine sampleArgs).outcome = Outcome.aborted 134 ∧
    (call_run (specEngine restlessStrategy 10) sampleArgs).outcome = Outcome.returned () :=
  ⟨run_reports_nothing abortingEngine sampleArgs,
    run_reports_nothing (specEngine restlessStrategy 10) sampleArgs⟩

/-- C5: two calls of `run` that differ only in one of the nine booleans posteriors,
equals, cluster_posteriors, write_resume, write_paramnames, read_resume, write_stats,
write_live, write_dead lead to two engine invocations whose argument vectors hold the two
values of that flag at the flag's position, differ at that position, and agree at each of
the other 19 positions. -/
theorem toggled_flag_changes_only_its_position (engine : Engine) (a : ArgVector)
    (flag : OutputFlag) :
    engineCalls (call_run engine a) = [a] ∧
    engineCalls (call_run engine (flag.toggle a)) = [flag.toggle a] ∧
    a.toList.length = 20 ∧ (flag.toggle a).toList.length = 20 ∧
    a.toList[flag.position]? = some (Arg.bool (flag.value a)) ∧
    (flag.toggle a).toList[flag.position]? = some (Arg.bool (!flag.value a)) ∧
    ∀ i, i < 20 → (a.toList[i]? ≠ (flag.toggle a).toList[i]? ↔ i = flag.position) := by
  refine ⟨engineCalls_call_run engine a, engineCalls_call_run engine _, rfl, rfl, ?_, ?_, ?_⟩
  · cases flag <;> rfl
  · cases flag <;> rfl
  · intro i hi
    cases flag <;> interval_cases i <;>
      simp [ArgVector.toList, OutputFlag.toggle, OutputFlag.position]

/-- C6 (against the engine as the specification describes it): with `max_ndead = N > 0`,
for every callback, every configuration and every strategy of the engine, the callback is
invoked at most `N` times during one call of `run`. -/
theorem max_ndead_bounds_callback_invocations (strategy : Strategy) (fuel : Nat)
    (a : ArgVector) (N : Int) (hN : a.max_ndead = N) (hpos : 0 < N) :
    ((callbackInvocations (call_run (specEngine strategy fuel) a)).length : Int) ≤ N := by
  rw [callbackInvocations_call_run]
  have h := specLoop_calls_le_cap a strategy (hN ▸ hpos) fuel []
  simp only [List.length_nil, Nat.cast_zero, add_zero] at h
  rw [hN] at h
  have hmax : max N 0 = N := max_eq_left (le_of_lt hpos)
  rw [hmax] at h
  exact h

/-- C6 at `max_ndead = 3` with an engine strategy that never stops by itself: the callback
is invoked 3 times, and the engine returns. -/
theorem max_ndead_bounds_callback_invocations_witness :
    ((callbackInvocations (call_run (specEngine restlessStrategy 10) sampleArgs)).length : Int)
      ≤ 3 ∧
    (callbackInvocations (call_run (specEngine restlessStrategy 10) sampleArgs)).length = 3 ∧
    (call_run (specEngine restlessStrategy 10) sampleArgs).outcome = Outcome.returned () :=
  ⟨max_ndead_bounds_callback_invocations restlessStrategy 10 sampleArgs 3 rfl (by decide),
    by decide, by decide⟩

/-- C7 (against the engine as the specification describes it): for every valid
configuration (`nDims >= 1`, `nDerived >= 0`, `nlive >= 1`, `num_repeats >= 1`,
`precision_criterion > 0`), every callback invocation during a call of `run` calls the
callback `run` was given, with a point buffer of exactly `nDims` elements, a derived buffer
of exactly `nDerived` elements, and these two sizes as the dimension arguments. -/
theorem callback_buffers_have_declared_sizes (strategy : Strategy) (fuel : Nat)
    (a : ArgVector) (hDims : 1 ≤ a.nDims) (hDerived : 0 ≤ a.nDerived) (_hlive : 1 ≤ a.nlive)
    (_hrepeats : 1 ≤ a.num_repeats) (_hprecision : a.precision_criterion.isPositive = true) :
    ∀ inv ∈ callbackInvocations (call_run (specEngine strategy fuel) a),
      inv.callee = a.c_loglikelihood_ptr ∧
      (inv.point.length : Int) = a.nDims ∧ (inv.derived.length : Int) = a.nDerived ∧
      inv.nDims = a.nDims ∧ inv.nDerived = a.nDerived := by
  intro inv hinv
  rw [callbackInvocations_call_run] at hinv
  obtain ⟨hc, hp, hd, hn, hm⟩ := specLoop_calls_shape a strategy fuel [] inv hinv
  refine ⟨hc, ?_, ?_, hn, hm⟩
  · rw [hp]; exact Int.toNat_of_nonneg (by omega)
  · rw [hd]; exact Int.toNat_of_nonneg hDerived

/-- C7 at a valid configuration with `nDims = 2`, `nDerived = 1`: three invocations, each
with a 2-element point buffer and a 1-element derived buffer. -/
theorem callback_buffers_have_declared_sizes_witness :
    ((callbackInvocations (call_run (specEngine restlessStrategy 10) sampleArgs)).map
      fun inv => (inv.point.length, inv.derived.length)) = [(2, 1), (2, 1), (2, 1)] ∧
    ∀ inv ∈ callbackInvocations (call_run (specEngine restlessStrategy 10) sampleArgs),
      inv.callee = sampleArgs.c_loglikelihood_ptr ∧
      (inv.point.length : Int) = sampleArgs.nDims ∧
      (inv.derived.length : Int) = sampleArgs.nDerived ∧
      inv.nDims = sampleArgs.nDims ∧ inv.nDerived = sampleArgs.nDerived :=
  ⟨by decide,
    callback_buffers_have_declared_sizes restlessStrategy 10 sampleArgs (by decide)
      (by decide) (by decide) (by decide) (by decide)⟩

/-- C8 as stated fails in both of its cases: with `__INTEL_COMPILER` defined the header
does not bind `POLYCHORD` to `__interfaces_module_MOD_run_polychord_no_prior_no_setup`
(it stops at `#error`), and with `__INTEL_COMPILER` not defined it does not stop with the
`Do not know how to link to Fortran libraries` diagnostic (it binds the symbol). -/
theorem POLYCHORD_binding_not_under_intel :
    POLYCHORD_binding true ≠
      Binding.symbol ("__interfaces_module_MOD_run_polychord_no_prior_no_setup") ∧
    POLYCHORD_binding false ≠
      Binding.error ("Do not know how to link to Fortran libraries, check symbol table " ++
        "for your platform (nm libnest3.a | grep nestrun) & edit " ++
        "example_eggbox_C++/eggbox.cc") := by
  decide

/-- C8, amended: the guard of lines 1-5 is `#ifndef __INTEL_COMPILER`.  When
`__INTEL_COMPILER` is not defined the header binds `POLYCHORD` to
`__interfaces_module_MOD_run_polychord_no_prior_no_setup`; when it is defined, translation
stops with the `Do not know how to link to Fortran libraries` `#error` diagnostic. -/
theorem POLYCHORD_binding_by_compiler (intel_compiler_defined : Bool) :
    POLYCHORD_binding intel_compiler_defined =
      if intel_compiler_defined = false then
        Binding.symbol ("__interfaces_module_MOD_run_polychord_no_prior_no_setup")
      else
        Binding.error ("Do not know how to link to Fortran libraries, check symbol " ++
          "table for your platform (nm libnest3.a | grep nestrun) & edit " ++
          "example_eggbox_C++/eggbox.cc") := by
  cases intel_compiler_defined <;> decide

/-- The header has no mechanism of its own that enforces `max_ndead`: linked to an engine
that ignores the cap, one call of `run` with `max_ndead = 3` and `nlive = 5` sees five
callback invocations. -/
theorem run_does_not_enforce_max_ndead :
    sampleArgs.max_ndead = 3 ∧
    (callbackInvocations (call_run liveOnlyEngine sampleArgs)).length = 5 := by
  decide

/-- C9: `run` itself never invokes the callback and never reads or writes a callback
buffer: the only action of the adapter in the trace of a call is the single engine
invocation, and the callback invocations of the whole call are exactly those the engine
made while it had control. -/
theorem run_touches_callback_only_through_engine (engine : Engine) (a : ArgVector) :
    directCallbackCalls (call_run engine a) = [] ∧
    bufferAccesses (call_run engine a) = [] ∧
    (call_run engine a).actions = [Action.engine a (engine a).calls] ∧
    callbackInvocations (call_run engine a) = engineCallbackCalls (call_run engine a) ∧
    engineCallbackCalls (call_run engine a) = (engine a).calls := by
  rw [callbackInvocations_call_run, call_run_exec]
  simp [directCallbackCalls, bufferAccesses, engineCallbackCalls]

end PolyChord
